import Mathlib

/-!
Verification of the rkvm client against its natural-language specification.

The development shallowly embeds the four Rust source files:
  src/input/src/linux/event.rs          (Event.to_raw / Event.from_raw / KeyKind)
  src/input/src/linux/event_writer.rs   (Device, setup_evdev, capability tables, EventWriter)
  src/client/src/main.rs                (try_connect racing, handshake, streaming loop)
  src/client/src/config.rs              (ServerAddressVisitor::visit_str)

Machine integers are modelled as Nat/Int; the code performs no arithmetic on
deltas or codes, so no overflow modelling is needed beyond range hypotheses.
Native calls (libevdev, sockets) are modelled by oracles giving their return
codes; async completion is modelled by explicit completion times.
-/

set_option autoImplicit false

/-! Linux input-event-codes constants, the values bound by the generated
`glue` bindings (linux/input-event-codes.h). -/

def EV_SYN : Nat := 0

def EV_KEY : Nat := 1

def EV_REL : Nat := 2

def SYN_REPORT : Nat := 0

def SYN_MAX : Nat := 15

def REL_X : Nat := 0

def REL_Y : Nat := 1

def REL_HWHEEL : Nat := 6

def REL_WHEEL : Nat := 8

def REL_WHEEL_HI_RES : Nat := 11

def REL_HWHEEL_HI_RES : Nat := 12

def REL_MAX : Nat := 15

def BTN_LEFT : Nat := 272

def BTN_RIGHT : Nat := 273

def BTN_MIDDLE : Nat := 274

def BTN_SIDE : Nat := 275

def BTN_EXTRA : Nat := 276

def BTN_FORWARD : Nat := 277

def BTN_BACK : Nat := 278

def BTN_TASK : Nat := 279

def BTN_GEAR_UP : Nat := 337

def KEY_MICMUTE : Nat := 248

/-! The portable event model (crate::event). The `Axis`, `Scroll`,
`Direction`, `KeyKind` and `Event` shapes are given in spec §3; the `Key` and
`Button` enumerations themselves live in input/src/event/, outside the
provided sources. -/

/-- Mouse movement axis. -/
inductive Axis
  | X
  | Y
deriving DecidableEq, Repr

/-- Scroll resolution tier. -/
inductive Scroll
  | Lo
  | HiRes
  | HiResH
deriving DecidableEq, Repr

/-- Key press direction. -/
inductive Direction
  | Up
  | Down
deriving DecidableEq, Repr

/-- Modelled from the spec: the mouse `Button` enumeration of crate::event is
not under src/; spec §3 describes it as a closed enumeration of mouse button
codes mapped bidirectionally to raw numeric OS codes, and C10 names Side and
Extra as members beyond Left/Right/Middle. Members carry the kernel BTN_
codes. -/
inductive Button
  | Left
  | Right
  | Middle
  | Side
  | Extra
  | Forward
  | Back
  | Task
deriving DecidableEq, Repr

/-- Modelled from the spec: the keyboard `Key` enumeration of crate::event is
not under src/; spec §3 describes it as a closed enumeration of keyboard key
codes mapped bidirectionally to raw numeric OS codes, all of them enabled by
the keyboard capability table (codes up to KEY_MICMUTE, per the table at
event_writer.rs:162-165). A representative closed set with kernel KEY_ codes. -/
inductive Key
  | Esc
  | Num1
  | Q
  | Enter
  | A
  | S
  | Space
  | MicMute
deriving DecidableEq, Repr

/-- A key-like event kind: keyboard key or mouse button (crate::event). -/
inductive KeyKind
  | Key (key : Key)
  | Button (button : Button)
deriving DecidableEq, Repr

/-- The portable input event (crate::event::Event), spec §3. Deltas are
signed 32-bit in the source; modelled as Int with range hypotheses where a
claim quantifies over them. -/
inductive Event
  | MouseMove (axis : Axis) (delta : Int)
  | MouseScroll (delta : Int) (scroll : Scroll)
  | Key (direction : Direction) (kind : KeyKind)
deriving DecidableEq, Repr

/-- The raw OS input record `input_event` (struct with type_, code, value and
a timeval). type_ and code are u16, value is i32. -/
structure RawEvent where
  type_ : Nat
  code : Nat
  value : Int
  tvSec : Int
  tvUsec : Int
deriving DecidableEq, Repr

/-- Modelled from the spec: raw code of a mouse button (Button::to_raw in
input/src/event/, not under src/); the bidirectional kernel-code mapping. -/
def Button.to_raw : Button → Nat
  | .Left => BTN_LEFT
  | .Right => BTN_RIGHT
  | .Middle => BTN_MIDDLE
  | .Side => BTN_SIDE
  | .Extra => BTN_EXTRA
  | .Forward => BTN_FORWARD
  | .Back => BTN_BACK
  | .Task => BTN_TASK

/-- Modelled from the spec: Button::from_raw, the inverse direction of the
bidirectional mapping; unknown raw codes map to none. -/
def Button.from_raw (code : Nat) : Option Button :=
  match code with
  | 272 => some .Left
  | 273 => some .Right
  | 274 => some .Middle
  | 275 => some .Side
  | 276 => some .Extra
  | 277 => some .Forward
  | 278 => some .Back
  | 279 => some .Task
  | _ => none

/-- Modelled from the spec: raw code of a keyboard key (Key::to_raw in
input/src/event/, not under src/); kernel KEY_ codes, all at most
KEY_MICMUTE. -/
def Key.to_raw : Key → Nat
  | .Esc => 1
  | .Num1 => 2
  | .Q => 16
  | .Enter => 28
  | .A => 30
  | .S => 31
  | .Space => 57
  | .MicMute => 248

/-- Modelled from the spec: Key::from_raw, the inverse direction of the
bidirectional mapping; unknown raw codes map to none. -/
def Key.from_raw (code : Nat) : Option Key :=
  match code with
  | 1 => some .Esc
  | 2 => some .Num1
  | 16 => some .Q
  | 28 => some .Enter
  | 30 => some .A
  | 31 => some .S
  | 57 => some .Space
  | 248 => some .MicMute
  | _ => none

/-- KeyKind::from_raw (event.rs:81-85): try Key::from_raw first, else
Button::from_raw. -/
def KeyKind.from_raw (code : Nat) : Option KeyKind :=
  match Key.from_raw code with
  | some key => some (KeyKind.Key key)
  | none =>
    match Button.from_raw code with
    | some button => some (KeyKind.Button button)
    | none => none

/-- KeyKind::to_raw (event.rs:87-92). -/
def KeyKind.to_raw : KeyKind → Nat
  | .Key key => key.to_raw
  | .Button button => button.to_raw

/-- Event::to_raw (event.rs:8-44): translate the portable event to a raw
input_event with a zeroed timestamp. -/
def Event.to_raw : Event → RawEvent
  | .MouseScroll delta .Lo => ⟨EV_REL, REL_WHEEL, delta, 0, 0⟩
  | .MouseScroll delta .HiRes => ⟨EV_REL, REL_WHEEL_HI_RES, delta, 0, 0⟩
  | .MouseScroll delta .HiResH => ⟨EV_REL, REL_HWHEEL_HI_RES, delta, 0, 0⟩
  | .MouseMove .X delta => ⟨EV_REL, REL_X, delta, 0, 0⟩
  | .MouseMove .Y delta => ⟨EV_REL, REL_Y, delta, 0, 0⟩
  | .Key .Up kind => ⟨EV_KEY, kind.to_raw, 0, 0, 0⟩
  | .Key .Down kind => ⟨EV_KEY, kind.to_raw, 1, 0, 0⟩

/-- Event::from_raw (event.rs:46-77): the match arms of the source in order;
any triple not matched yields none. -/
def Event.from_raw (raw : RawEvent) : Option Event :=
  if raw.type_ = EV_REL ∧ raw.code = REL_WHEEL then
    some (.MouseScroll raw.value .Lo)
  else if raw.type_ = EV_REL ∧ raw.code = REL_WHEEL_HI_RES then
    some (.MouseScroll raw.value .HiRes)
  else if raw.type_ = EV_REL ∧ raw.code = REL_HWHEEL_HI_RES then
    some (.MouseScroll raw.value .HiResH)
  else if raw.type_ = EV_REL ∧ raw.code = REL_X then
    some (.MouseMove .X raw.value)
  else if raw.type_ = EV_REL ∧ raw.code = REL_Y then
    some (.MouseMove .Y raw.value)
  else if raw.type_ = EV_KEY ∧ raw.value = 0 then
    (KeyKind.from_raw raw.code).map (Event.Key .Up)
  else if raw.type_ = EV_KEY ∧ raw.value = 1 then
    (KeyKind.from_raw raw.code).map (Event.Key .Down)
  else
    none

/-! Embedding of src/input/src/linux/event_writer.rs. -/

/-- The two virtual device types (event_writer.rs:11-14). -/
inductive DevType
  | Keyboard
  | Mouse
deriving DecidableEq, Repr

/-- A raw (type, code, value) triple as passed to
libevdev_uinput_write_event. -/
structure WriteCall where
  type_ : Nat
  code : Nat
  value : Int
deriving DecidableEq, Repr

/-- Native write oracle: the return code libevdev_uinput_write_event gives for
each attempted triple (negative means failure, as in the C API). -/
def WriteOracle : Type := WriteCall → Int

/-- Loop body of Device::write_raw (event_writer.rs:71-84): attempt the calls
in order, stopping at the first negative return, which is converted to the OS
error -ret. Returns the calls actually issued and the outcome. -/
def writeCalls (oracle : WriteOracle) : List WriteCall → List WriteCall × Option Nat
  | [] => ([], none)
  | call :: rest =>
    if oracle call < 0 then
      ([call], some (-(oracle call)).toNat)
    else
      let r := writeCalls oracle rest
      (call :: r.1, r.2)

/-- Device::write_raw (event_writer.rs:62-87): the translated event followed
by the EV_SYN/SYN_REPORT/0 sync event, each written through the injection
handle; first failure aborts with the OS error. Result: list of native calls
issued, and the error if any (none = Ok). -/
def Device.write_raw (oracle : WriteOracle) (event : RawEvent) : List WriteCall × Option Nat :=
  writeCalls oracle
    [⟨event.type_, event.code, event.value⟩, ⟨EV_SYN, SYN_REPORT, 0⟩]

/-- An inclusive code range, RangeInclusive<u32> in the tables. -/
structure CodeRange where
  lo : Nat
  hi : Nat
deriving DecidableEq, Repr

/-- MOUSE_EVENT_TYPES (event_writer.rs:140-144). -/
def MOUSE_EVENT_TYPES : List (Nat × List CodeRange) :=
  [(EV_SYN, [⟨SYN_REPORT, SYN_MAX⟩]),
   (EV_REL, [⟨0, REL_MAX⟩]),
   (EV_KEY, [⟨BTN_LEFT, BTN_GEAR_UP⟩])]

/-- KEYBOARD_EVENT_TYPES (event_writer.rs:162-165). -/
def KEYBOARD_EVENT_TYPES : List (Nat × List CodeRange) :=
  [(EV_SYN, [⟨SYN_REPORT, SYN_MAX⟩]),
   (EV_KEY, [⟨0, KEY_MICMUTE⟩])]

/-- Whether a capability table enables a given (event type, code) pair: some
entry has the event type and one of its inclusive ranges contains the code. -/
def coversCode (table : List (Nat × List CodeRange)) (type_ code : Nat) : Bool :=
  table.any fun entry =>
    entry.1 == type_ && entry.2.any fun range =>
      decide (range.lo ≤ code) && decide (code ≤ range.hi)

/-- The dev_type routing computation of EventWriter::write
(event_writer.rs:192-201): scroll and move to the mouse; a key to the mouse
iff its kind is Button Left/Right/Middle, else to the keyboard. -/
def EventWriter.devTypeFor (event : Event) : DevType :=
  match event with
  | .MouseScroll _ _ => DevType.Mouse
  | .MouseMove _ _ => DevType.Mouse
  | .Key _ kind =>
    match kind with
    | .Button .Left => DevType.Mouse
    | .Button .Right => DevType.Mouse
    | .Button .Middle => DevType.Mouse
    | _ => DevType.Keyboard

/-! Device construction (Device::new_sync and setup_evdev) with explicit
resource accounting. Native calls are modelled by an oracle giving each call
its return code; the handles acquired and released on each path are logged. -/

/-- Return-code oracle for the native calls made during construction. -/
structure SetupOracle where
  enableTypeRet : Nat → Int
  enableCodeRet : Nat → Nat → Int

/-- Codes of an inclusive range, in iteration order (RangeInclusive
iteration). -/
def CodeRange.codes (range : CodeRange) : List Nat :=
  (List.range (range.hi + 1 - range.lo)).map (fun i => range.lo + i)

/-- Enable each code of a list for one event type (inner loop of setup_evdev,
event_writer.rs:114-119); first negative return aborts with the OS error. -/
def enableCodes (oracle : SetupOracle) (type_ : Nat) : List Nat → Option Nat
  | [] => none
  | code :: rest =>
    if oracle.enableCodeRet type_ code < 0 then
      some (-(oracle.enableCodeRet type_ code)).toNat
    else
      enableCodes oracle type_ rest

/-- setup_evdev (event_writer.rs:97-123): for each table entry enable the
event type then all its codes; first negative return aborts with the OS error
(Error::from_raw_os_error(-ret)). none = Ok. Metadata setters return no
error and are not modelled. -/
def setup_evdev (oracle : SetupOracle) : List (Nat × List CodeRange) → Option Nat
  | [] => none
  | (type_, ranges) :: rest =>
    if oracle.enableTypeRet type_ < 0 then
      some (-(oracle.enableTypeRet type_)).toNat
    else
      match enableCodes oracle type_ (ranges.flatMap CodeRange.codes) with
      | some err => some err
      | none => setup_evdev oracle rest

/-- The two native resources paired inside Device. -/
inductive Handle
  | evdev
  | uinput
deriving DecidableEq, Repr

/-- Errors of Device::new_sync: the synthetic "Failed to create device" error
for a null descriptor, or an OS error built from a negative return code. -/
inductive DevError
  | createFailed
  | os (errno : Nat)
deriving DecidableEq, Repr

/-- Return-code oracle for a whole Device::new_sync run. -/
structure NewSyncOracle where
  evdevNull : Bool
  setup : SetupOracle
  uinputRet : Int

/-- Device::new_sync (event_writer.rs:26-56) with resource accounting:
returns (handles acquired, handles released, outcome). A null descriptor
fails before anything is held; a setup_evdev failure frees the descriptor and
returns its OS error; a negative uinput-creation return frees the descriptor
and returns the OS error; on success both handles are held and none
released. -/
def Device.new_sync (oracle : NewSyncOracle) (eventTypes : List (Nat × List CodeRange)) :
    List Handle × List Handle × Option DevError :=
  if oracle.evdevNull then
    ([], [], some DevError.createFailed)
  else
    match setup_evdev oracle.setup eventTypes with
    | some errno => ([Handle.evdev], [Handle.evdev], some (DevError.os errno))
    | none =>
      if oracle.uinputRet < 0 then
        ([Handle.evdev], [Handle.evdev], some (DevError.os (-oracle.uinputRet).toNat))
      else
        ([Handle.evdev, Handle.uinput], [], none)

/-! Embedding of src/client/src/main.rs (connection racing, version
handshake, streaming loop) and src/client/src/config.rs (address parsing). -/

/-- The payload of a successful try_connect (main.rs:18-32): the winning
server's name and address; certificate and stream are opaque native values
not modelled. -/
structure Conn where
  name : String
  host : String
  port : Nat
deriving DecidableEq, Repr

/-- Error of a failed connection attempt (certificate read/parse or TCP
connect failure), opaque payload. -/
structure ConnError where
  message : String
deriving DecidableEq, Repr

/-- One try_connect future: its completion time and its result. -/
structure Attempt where
  time : Nat
  result : Except ConnError Conn
deriving Repr

/-- futures::future::select_all over completion times: the future with the
earliest completion time resolves first, success or failure alike; on equal
times the earliest in the list wins (poll order). none on the empty list
(select_all panics there; run races one future per configured server). -/
def selectAll : List Attempt → Option Attempt
  | [] => none
  | a :: rest =>
    match selectAll rest with
    | none => some a
    | some b => if a.time ≤ b.time then some a else some b

/-- The connection-racing step of run (main.rs:34-40): `select_all(...)` then
`res?` — the result of the first attempt to complete becomes the result of
the race, success or failure. -/
def raceConnect (attempts : List Attempt) : Option (Except ConnError Conn) :=
  (selectAll attempts).map Attempt.result

/-- A protocol message (net::Message, collaborator-owned per spec §1): an
event payload or a keep-alive. -/
inductive Message
  | event (event : Event)
  | keepAlive
deriving DecidableEq, Repr

/-- Outcome of one bounded read in the streaming loop: either MESSAGE_TIMEOUT
elapsed with no complete message, or a message arrived in time. -/
inductive ReadOutcome
  | timeout
  | msg (message : Message)
deriving DecidableEq, Repr

/-- Errors terminating run after the connection phase. -/
inductive RunError
  | versionMismatch (got expected : Nat)
  | readTimedOut
  | writeFailed (errno : Nat)
deriving DecidableEq, Repr

/-- The streaming loop of run (main.rs:77-85) over a finite prefix of read
outcomes; the write oracle gives each EventWriter::write outcome (none = Ok,
some errno = failure). Returns the events dispatched to the writer in order
and the terminating error: a timeout fails the loop with the timeout error; a
message carrying an event is dispatched, and a write failure terminates the
loop with it; a keep-alive message causes no write. The loop never returns
normally (its type is Infallible); an exhausted prefix means it is still
running. -/
def streamLoop (write : Event → Option Nat) : List ReadOutcome → List Event × Option RunError
  | [] => ([], none)
  | ReadOutcome.timeout :: _ => ([], some RunError.readTimedOut)
  | ReadOutcome.msg (Message.event e) :: rest =>
    match write e with
    | some errno => ([e], some (RunError.writeFailed errno))
    | none =>
      let r := streamLoop write rest
      (e :: r.1, r.2)
  | ReadOutcome.msg Message.keepAlive :: rest => streamLoop write rest

/-- run after the TLS stream is established (main.rs:65-85): the local
protocol version is written, the peer version read; a peer version differing
from the local constant fails with the version-mismatch error carrying
(got, expected) before the streaming loop exists; otherwise the streaming
loop runs. Parameterised by the collaborator constant PROTOCOL_VERSION
(net crate, spec §1). -/
def runAfterConnect (localVersion peerVersion : Nat) (write : Event → Option Nat)
    (reads : List ReadOutcome) : List Event × Option RunError :=
  if peerVersion ≠ localVersion then
    ([], some (RunError.versionMismatch peerVersion localVersion))
  else
    streamLoop write reads

/-- Rust str::split at the colon character, over the character list: splits
at every colon, keeping empty segments; the result is never empty. -/
def splitColon : List Char → List (List Char)
  | [] => [[]]
  | c :: rest =>
    if c = ':' then [] :: splitColon rest
    else
      match splitColon rest with
      | [] => [[c]]
      | seg :: segs => (c :: seg) :: segs

/-- Rust u16::from_str as invoked by data.parse() in visit_str: an optional
leading plus sign, then one or more ASCII decimal digits, whose value must
fit in 16 bits (from_str_radix fails on overflow; for digits-only input that
is equivalent to the final value exceeding 65535); anything else fails. A
minus sign is rejected for unsigned targets. -/
def parseU16 (s : List Char) : Option Nat :=
  let digits :=
    match s with
    | '+' :: rest => rest
    | other => other
  if digits = [] then none
  else if digits.all Char.isDigit then
    let value := digits.foldl (fun acc c => acc * 10 + (c.toNat - 48)) 0
    if value < 65536 then some value else none
  else none

/-- A parsed server address (config.rs:17-20). -/
structure ServerAddress where
  host : String
  port : Nat
deriving DecidableEq, Repr

/-- ServerAddressVisitor::visit_str (config.rs:40-61): split on the colon;
the first segment is the host (always present, possibly empty); the second
must parse as a u16 port; any third segment is the "Extraneous data" error;
a missing or unparseable port is the "Invalid server description" error. -/
def ServerAddressVisitor.visit_str (data : String) : Except String ServerAddress :=
  match splitColon data.data with
  | [] => Except.error "Invalid server description"
  | host :: rest =>
    match rest with
    | [] => Except.error "Invalid server description"
    | portSeg :: rest2 =>
      match parseU16 portSeg with
      | none => Except.error "Invalid server description"
      | some port =>
        if rest2 = [] then Except.ok ⟨⟨host⟩, port⟩
        else Except.error "Extraneous data"

/-! Theorems. Helper lemmas come first; each claim is settled by one theorem
named after it. -/

/-- KeyKind raw codes round-trip: from_raw after to_raw restores the kind,
since Key and Button codes are disjoint and each map is injective. -/
theorem KeyKind.from_raw_to_raw (kind : KeyKind) :
    KeyKind.from_raw kind.to_raw = some kind := by
  cases kind with
  | Key key => cases key <;> rfl
  | Button button => cases button <;> rfl

/-- C2: for every Event (MouseMove with any axis and delta, MouseScroll with
any delta and resolution tier, Key with any direction and kind), from_raw
applied to to_raw returns some of an equal Event, with direction Up encoded
as raw value 0 and Down as raw value 1. -/
theorem Event.from_raw_to_raw_roundtrip (e : Event) :
    Event.from_raw e.to_raw = some e
    ∧ (∀ kind : KeyKind, (Event.Key Direction.Up kind).to_raw.value = 0
        ∧ (Event.Key Direction.Down kind).to_raw.value = 1) := by
  constructor
  · cases e with
    | MouseMove axis delta =>
      cases axis <;>
        simp [Event.to_raw, Event.from_raw, EV_REL, EV_KEY, REL_X, REL_Y,
          REL_WHEEL, REL_WHEEL_HI_RES, REL_HWHEEL_HI_RES]
    | MouseScroll delta scroll =>
      cases scroll <;>
        simp [Event.to_raw, Event.from_raw, EV_REL, EV_KEY, REL_X, REL_Y,
          REL_WHEEL, REL_WHEEL_HI_RES, REL_HWHEEL_HI_RES]
    | Key direction kind =>
      cases direction <;>
        simp [Event.to_raw, Event.from_raw, EV_REL, EV_KEY, REL_X, REL_Y,
          REL_WHEEL, REL_WHEEL_HI_RES, REL_HWHEEL_HI_RES,
          KeyKind.from_raw_to_raw kind]
  · intro kind
    exact ⟨rfl, rfl⟩

/-- C3: EventWriter::write routes every MouseMove and MouseScroll to the
mouse device, and a Key event to the mouse device exactly when its kind is
Button Left, Right or Middle, to the keyboard device in every other case. -/
theorem EventWriter.write_routing (direction : Direction) (kind : KeyKind)
    (axis : Axis) (delta scrollDelta : Int) (scroll : Scroll) :
    EventWriter.devTypeFor (Event.MouseMove axis delta) = DevType.Mouse
    ∧ EventWriter.devTypeFor (Event.MouseScroll scrollDelta scroll) = DevType.Mouse
    ∧ (EventWriter.devTypeFor (Event.Key direction kind) = DevType.Mouse
        ↔ (kind = KeyKind.Button Button.Left ∨ kind = KeyKind.Button Button.Right
            ∨ kind = KeyKind.Button Button.Middle))
    ∧ (EventWriter.devTypeFor (Event.Key direction kind) = DevType.Keyboard
        ↔ ¬(kind = KeyKind.Button Button.Left ∨ kind = KeyKind.Button Button.Right
            ∨ kind = KeyKind.Button Button.Middle)) := by
  refine ⟨rfl, rfl, ?_, ?_⟩ <;>
    (cases kind with
     | Key key => simp [EventWriter.devTypeFor]
     | Button button => cases button <;> simp [EventWriter.devTypeFor])

/-- C4: a successful Device::write_raw issues exactly two native write calls,
first the translated raw event, then the EV_SYN/SYN_REPORT/0 sync event. -/
theorem Device.write_raw_success_emits (oracle : WriteOracle) (event : RawEvent)
    (h : (Device.write_raw oracle event).2 = none) :
    (Device.write_raw oracle event).1 =
      [⟨event.type_, event.code, event.value⟩, ⟨EV_SYN, SYN_REPORT, 0⟩] := by
  by_cases h1 : oracle ⟨event.type_, event.code, event.value⟩ < 0
  · simp [Device.write_raw, writeCalls, h1] at h
  · by_cases h2 : oracle ⟨EV_SYN, SYN_REPORT, 0⟩ < 0
    · simp [Device.write_raw, writeCalls, h1, h2] at h
    · simp [Device.write_raw, writeCalls, h1, h2]

/-- C4 witness: with every native call succeeding, writing a relative-X
event issues that event followed by the sync event, and nothing else. -/
theorem Device.write_raw_success_emits_witness :
    (Device.write_raw (fun _ => 0) ⟨EV_REL, REL_X, 5, 0, 0⟩).1 =
      [⟨EV_REL, REL_X, 5⟩, ⟨EV_SYN, SYN_REPORT, 0⟩] :=
  Device.write_raw_success_emits (fun _ => 0) ⟨EV_REL, REL_X, 5, 0, 0⟩ rfl

/-- C6: whenever the peer version read after writing the local version
differs from the local protocol version, run fails with the version-mismatch
error carrying the received and expected versions, no event is ever
dispatched, and the streaming loop is never entered. -/
theorem runAfterConnect_version_mismatch (localVersion peerVersion : Nat)
    (write : Event → Option Nat) (reads : List ReadOutcome)
    (h : peerVersion ≠ localVersion) :
    runAfterConnect localVersion peerVersion write reads
      = ([], some (RunError.versionMismatch peerVersion localVersion)) := by
  simp [runAfterConnect, h]

/-- C6 witness: local version 2 against peer version 3 fails with the
mismatch error before any message is read. -/
theorem runAfterConnect_version_mismatch_witness :
    runAfterConnect 2 3 (fun _ => none) [ReadOutcome.msg Message.keepAlive]
      = ([], some (RunError.versionMismatch 3 2)) :=
  runAfterConnect_version_mismatch 2 3 (fun _ => none)
    [ReadOutcome.msg Message.keepAlive] (by decide)

/-- C8: one iteration of the streaming loop: a timed-out read terminates the
loop with the timeout error; a keep-alive message causes no write and leaves
the loop state unchanged; an event message is dispatched to the event writer,
after which the loop continues if the write succeeded and terminates with the
write error if it failed. -/
theorem streamLoop_spec (write : Event → Option Nat) (rest : List ReadOutcome)
    (e : Event) :
    streamLoop write (ReadOutcome.timeout :: rest) = ([], some RunError.readTimedOut)
    ∧ streamLoop write (ReadOutcome.msg Message.keepAlive :: rest) = streamLoop write rest
    ∧ (write e = none →
        streamLoop write (ReadOutcome.msg (Message.event e) :: rest)
          = (e :: (streamLoop write rest).1, (streamLoop write rest).2))
    ∧ (∀ errno, write e = some errno →
        streamLoop write (ReadOutcome.msg (Message.event e) :: rest)
          = ([e], some (RunError.writeFailed errno))) := by
  refine ⟨rfl, rfl, ?_, ?_⟩
  · intro h
    simp [streamLoop, h]
  · intro errno h
    simp [streamLoop, h]

/-- C8 witness: with a writer that always succeeds, a keep-alive then an
event then nothing leaves exactly that one event dispatched and the loop
still running, and a lone timed-out read yields the timeout error. -/
theorem streamLoop_spec_witness :
    streamLoop (fun _ => none)
        [ReadOutcome.msg (Message.event (Event.MouseMove Axis.X 1))]
      = ([Event.MouseMove Axis.X 1], none)
    ∧ streamLoop (fun _ => none) [ReadOutcome.timeout]
      = ([], some RunError.readTimedOut) := by
  constructor
  · have h := (streamLoop_spec (fun _ => none) [] (Event.MouseMove Axis.X 1)).2.2.1 rfl
    exact h
  · exact (streamLoop_spec (fun _ => none) [] (Event.MouseMove Axis.X 1)).1

/-- selectAll yields none exactly on the empty list. -/
theorem selectAll_eq_none (attempts : List Attempt) :
    selectAll attempts = none ↔ attempts = [] := by
  cases attempts with
  | nil => simp [selectAll]
  | cons head rest =>
    simp only [selectAll]
    rcases hr : selectAll rest with _ | b
    · simp
    · by_cases ht : head.time ≤ b.time <;> simp [ht]

/-- selectAll returns an element of its input list. -/
theorem selectAll_mem (attempts : List Attempt) (a : Attempt)
    (h : selectAll attempts = some a) : a ∈ attempts := by
  induction attempts generalizing a with
  | nil => simp [selectAll] at h
  | cons head rest ih =>
    simp only [selectAll] at h
    rcases hr : selectAll rest with _ | b
    · rw [hr] at h
      simp only [Option.some.injEq] at h
      subst h
      exact List.mem_cons_self _ _
    · rw [hr] at h
      by_cases ht : head.time ≤ b.time
      · simp only [if_pos ht, Option.some.injEq] at h
        subst h
        exact List.mem_cons_self _ _
      · simp only [if_neg ht, Option.some.injEq] at h
        subst h
        exact List.mem_cons_of_mem _ (ih b hr)

/-- selectAll returns an attempt of minimal completion time: the first
future to become ready wins the poll. -/
theorem selectAll_min (attempts : List Attempt) (a : Attempt)
    (h : selectAll attempts = some a) : ∀ b ∈ attempts, a.time ≤ b.time := by
  induction attempts generalizing a with
  | nil => simp [selectAll] at h
  | cons head rest ih =>
    intro c hc
    simp only [selectAll] at h
    rcases hr : selectAll rest with _ | b
    · rw [hr] at h
      simp only [Option.some.injEq] at h
      subst h
      obtain rfl : rest = [] := (selectAll_eq_none rest).mp hr
      rcases List.mem_cons.mp hc with rfl | hmem
      · exact Nat.le_refl _
      · simp at hmem
    · rw [hr] at h
      by_cases ht : head.time ≤ b.time
      · simp only [if_pos ht, Option.some.injEq] at h
        subst h
        rcases List.mem_cons.mp hc with rfl | hmem
        · exact Nat.le_refl _
        · exact Nat.le_trans ht (ih b hr c hmem)
      · simp only [if_neg ht, Option.some.injEq] at h
        subst h
        rcases List.mem_cons.mp hc with rfl | hmem
        · exact Nat.le_of_lt (Nat.lt_of_not_le ht)
        · exact ih b hr c hmem

/-- selectAll is defined on every nonempty list. -/
theorem selectAll_isSome (attempts : List Attempt) (h : attempts ≠ []) :
    ∃ a, selectAll attempts = some a := by
  rcases hs : selectAll attempts with _ | a
  · exact absurd ((selectAll_eq_none attempts).mp hs) h
  · exact ⟨a, rfl⟩

/-- C1 counterexample: with an attempt failing at time 0 while another
succeeds at time 1, the racer returns the failure, although an attempt
completes successfully; the failed attempt decides the race, which the claim
says cannot happen. -/
theorem raceConnect_failure_decides :
    raceConnect
        [⟨0, Except.error ⟨"connection refused"⟩⟩,
         ⟨1, Except.ok ⟨"srv", "example.org", 5000⟩⟩]
      = some (Except.error ⟨"connection refused"⟩)
    ∧ raceConnect
        [⟨0, Except.error ⟨"connection refused"⟩⟩,
         ⟨1, Except.ok ⟨"srv", "example.org", 5000⟩⟩]
      ≠ some (Except.ok ⟨"srv", "example.org", 5000⟩) := by
  refine ⟨rfl, fun hcontr => ?_⟩
  simp [raceConnect, selectAll] at hcontr

/-- C1 amended: the racer returns the result of the first attempt to
complete, success or failure alike — for every nonempty attempt list it
returns the result of an attempt with minimal completion time (list order
breaking ties), so a quick failure ends the race even when a later attempt
would succeed. -/
theorem raceConnect_first_completion (attempts : List Attempt)
    (h : attempts ≠ []) :
    ∃ a ∈ attempts, raceConnect attempts = some a.result
      ∧ ∀ b ∈ attempts, a.time ≤ b.time := by
  obtain ⟨a, ha⟩ := selectAll_isSome attempts h
  exact ⟨a, selectAll_mem attempts a ha,
    by simp [raceConnect, ha], selectAll_min attempts a ha⟩

/-- C1 amended witness: of a failing attempt at time 3 and a successful one
at time 1, the racer returns the later-listed but earlier-completing
success. -/
theorem raceConnect_first_completion_witness :
    ∃ a ∈ [(⟨3, Except.error ⟨"unreachable"⟩⟩ : Attempt),
           ⟨1, Except.ok ⟨"srv", "example.org", 5000⟩⟩],
      raceConnect [⟨3, Except.error ⟨"unreachable"⟩⟩,
          ⟨1, Except.ok ⟨"srv", "example.org", 5000⟩⟩] = some a.result
        ∧ ∀ b ∈ [(⟨3, Except.error ⟨"unreachable"⟩⟩ : Attempt),
            ⟨1, Except.ok ⟨"srv", "example.org", 5000⟩⟩], a.time ≤ b.time :=
  raceConnect_first_completion _ (by simp)

/-- C7: Event::from_raw returns none for every (type, code, value) triple
that to_raw never produces: any type other than EV_REL or EV_KEY, any EV_REL
code outside the five produced axis codes, any EV_KEY value other than 0
or 1, and any EV_KEY code resolving to neither a known Key nor a known
Button; being a total function into Option it neither panics nor errors. -/
theorem Event.from_raw_rejects (raw : RawEvent) :
    (raw.type_ ≠ EV_REL ∧ raw.type_ ≠ EV_KEY → Event.from_raw raw = none)
    ∧ (raw.type_ = EV_REL
        ∧ raw.code ≠ REL_WHEEL ∧ raw.code ≠ REL_WHEEL_HI_RES
        ∧ raw.code ≠ REL_HWHEEL_HI_RES ∧ raw.code ≠ REL_X ∧ raw.code ≠ REL_Y →
        Event.from_raw raw = none)
    ∧ (raw.type_ = EV_KEY ∧ raw.value ≠ 0 ∧ raw.value ≠ 1 →
        Event.from_raw raw = none)
    ∧ (raw.type_ = EV_KEY ∧ KeyKind.from_raw raw.code = none →
        Event.from_raw raw = none) := by
  refine ⟨fun h => ?_, fun h => ?_, fun h => ?_, fun h => ?_⟩
  · simp [Event.from_raw, h.1, h.2]
  · obtain ⟨h1, h2, h3, h4, h5, h6⟩ := h
    simp [Event.from_raw, h1, h2, h3, h4, h5, h6, EV_REL, EV_KEY]
  · obtain ⟨h1, h2, h3⟩ := h
    simp [Event.from_raw, h1, h2, h3, EV_REL, EV_KEY]
  · obtain ⟨h1, h2⟩ := h
    simp [Event.from_raw, h1, h2, EV_REL, EV_KEY]

/-- C7 witness: an EV_ABS-typed triple, an unproduced EV_REL code (the
low-resolution horizontal wheel), an EV_KEY autorepeat value 2, and an EV_KEY
code between the known Key and Button ranges are all rejected. -/
theorem Event.from_raw_rejects_witness :
    Event.from_raw ⟨3, 0, 0, 0, 0⟩ = none
    ∧ Event.from_raw ⟨EV_REL, REL_HWHEEL, 1, 0, 0⟩ = none
    ∧ Event.from_raw ⟨EV_KEY, 30, 2, 0, 0⟩ = none
    ∧ Event.from_raw ⟨EV_KEY, 260, 1, 0, 0⟩ = none :=
  ⟨(Event.from_raw_rejects ⟨3, 0, 0, 0, 0⟩).1 (by decide),
   (Event.from_raw_rejects ⟨EV_REL, REL_HWHEEL, 1, 0, 0⟩).2.1
     ⟨rfl, by decide, by decide, by decide, by decide, by decide⟩,
   (Event.from_raw_rejects ⟨EV_KEY, 30, 2, 0, 0⟩).2.2.1 ⟨rfl, by decide, by decide⟩,
   (Event.from_raw_rejects ⟨EV_KEY, 260, 1, 0, 0⟩).2.2.2 ⟨rfl, rfl⟩⟩

/-- C9: on every failure path of Device::new_sync the handles released are
exactly the handles acquired (no leak), and the error matches the path: a
null descriptor fails with the construction error holding nothing; a failing
enable step frees the descriptor and returns the OS error of its negative
return; a failing injection-handle creation frees the descriptor and returns
the OS error of its negative return. -/
theorem Device.new_sync_no_leak (oracle : NewSyncOracle)
    (eventTypes : List (Nat × List CodeRange)) (err : DevError)
    (h : (Device.new_sync oracle eventTypes).2.2 = some err) :
    (Device.new_sync oracle eventTypes).1 = (Device.new_sync oracle eventTypes).2.1
    ∧ (oracle.evdevNull = true →
        (Device.new_sync oracle eventTypes).1 = [] ∧ err = DevError.createFailed)
    ∧ (∀ errno, oracle.evdevNull = false →
        setup_evdev oracle.setup eventTypes = some errno → err = DevError.os errno)
    ∧ (oracle.evdevNull = false → setup_evdev oracle.setup eventTypes = none →
        oracle.uinputRet < 0 → err = DevError.os (-oracle.uinputRet).toNat) := by
  cases hn : oracle.evdevNull with
  | true =>
    have hval : Device.new_sync oracle eventTypes
        = ([], [], some DevError.createFailed) := by
      simp [Device.new_sync, hn]
    rw [hval] at h
    obtain rfl : DevError.createFailed = err := Option.some.inj h
    exact ⟨by rw [hval], fun _ => ⟨by rw [hval], rfl⟩,
      fun errno hfalse _ => Bool.noConfusion hfalse,
      fun hfalse _ _ => Bool.noConfusion hfalse⟩
  | false =>
    rcases hs : setup_evdev oracle.setup eventTypes with _ | errno
    · by_cases hu : oracle.uinputRet < 0
      · have hval : Device.new_sync oracle eventTypes
            = ([Handle.evdev], [Handle.evdev],
               some (DevError.os (-oracle.uinputRet).toNat)) := by
          simp [Device.new_sync, hn, hs, hu]
        rw [hval] at h
        obtain rfl : DevError.os (-oracle.uinputRet).toNat = err := Option.some.inj h
        exact ⟨by rw [hval], fun htrue => Bool.noConfusion htrue,
          fun e _ he => Option.noConfusion he, fun _ _ _ => rfl⟩
      · have hval : Device.new_sync oracle eventTypes
            = ([Handle.evdev, Handle.uinput], [], none) := by
          simp [Device.new_sync, hn, hs, hu]
        rw [hval] at h
        exact Option.noConfusion h
    · have hval : Device.new_sync oracle eventTypes
          = ([Handle.evdev], [Handle.evdev], some (DevError.os errno)) := by
        simp [Device.new_sync, hn, hs]
      rw [hval] at h
      obtain rfl : DevError.os errno = err := Option.some.inj h
      exact ⟨by rw [hval], fun htrue => Bool.noConfusion htrue,
        fun e _ he => by rw [Option.some.inj he],
        fun _ hnone _ => Option.noConfusion hnone⟩

/-- C9 witness: with a first enable-event-type call failing with return code
-5, construction releases exactly what it acquired (the descriptor) and
reports OS error 5. -/
theorem Device.new_sync_no_leak_witness :
    (Device.new_sync ⟨false, ⟨fun _ => -5, fun _ _ => 0⟩, 0⟩ MOUSE_EVENT_TYPES).1
      = (Device.new_sync ⟨false, ⟨fun _ => -5, fun _ _ => 0⟩, 0⟩ MOUSE_EVENT_TYPES).2.1
    ∧ DevError.os 5 = DevError.os 5 :=
  ⟨(Device.new_sync_no_leak ⟨false, ⟨fun _ => -5, fun _ _ => 0⟩, 0⟩ MOUSE_EVENT_TYPES
      (DevError.os 5) (by rfl)).1,
   (Device.new_sync_no_leak ⟨false, ⟨fun _ => -5, fun _ _ => 0⟩, 0⟩ MOUSE_EVENT_TYPES
      (DevError.os 5) (by rfl)).2.2.1 5 rfl (by rfl)⟩

/-- C10: a Key event whose kind is a mouse button other than Left, Right or
Middle routes to the keyboard device; the keyboard capability table, whose
EV_KEY codes stop at KEY_MICMUTE, does not enable the button's code, while
the mouse table's EV_KEY range BTN_LEFT..=BTN_GEAR_UP does contain it. -/
theorem EventWriter.nonstandard_button_routing (button : Button)
    (direction : Direction)
    (h : button ≠ Button.Left ∧ button ≠ Button.Right ∧ button ≠ Button.Middle) :
    EventWriter.devTypeFor (Event.Key direction (KeyKind.Button button))
      = DevType.Keyboard
    ∧ coversCode KEYBOARD_EVENT_TYPES EV_KEY button.to_raw = false
    ∧ coversCode MOUSE_EVENT_TYPES EV_KEY button.to_raw = true
    ∧ KEY_MICMUTE < button.to_raw
    ∧ BTN_LEFT ≤ button.to_raw ∧ button.to_raw ≤ BTN_GEAR_UP := by
  obtain ⟨h1, h2, h3⟩ := h
  cases button
  · exact absurd rfl h1
  · exact absurd rfl h2
  · exact absurd rfl h3
  all_goals
    cases direction <;>
      exact ⟨rfl, by decide, by decide, by decide, by decide, by decide⟩

/-- C10 witness: a Side-button press routes to the keyboard device, whose
table does not enable its code 275, while the mouse table does. -/
theorem EventWriter.nonstandard_button_routing_witness :
    EventWriter.devTypeFor (Event.Key Direction.Down (KeyKind.Button Button.Side))
      = DevType.Keyboard
    ∧ coversCode KEYBOARD_EVENT_TYPES EV_KEY Button.Side.to_raw = false
    ∧ coversCode MOUSE_EVENT_TYPES EV_KEY Button.Side.to_raw = true
    ∧ KEY_MICMUTE < Button.Side.to_raw
    ∧ BTN_LEFT ≤ Button.Side.to_raw ∧ Button.Side.to_raw ≤ BTN_GEAR_UP :=
  EventWriter.nonstandard_button_routing Button.Side Direction.Down
    ⟨by decide, by decide, by decide⟩

/-- splitColon never returns the empty list. -/
theorem splitColon_ne_nil (cs : List Char) : splitColon cs ≠ [] := by
  cases cs with
  | nil => simp [splitColon]
  | cons c rest =>
    simp only [splitColon]
    by_cases hc : c = ':'
    · simp [hc]
    · simp only [hc, if_false]
      rcases hr : splitColon rest with _ | ⟨seg, segs⟩ <;> simp

/-- A singleton split means the input had no colon and is returned whole. -/
theorem splitColon_eq_singleton (cs : List Char) (a : List Char)
    (h : splitColon cs = [a]) : cs = a ∧ ':' ∉ a := by
  induction cs generalizing a with
  | nil =>
    simp only [splitColon, List.cons.injEq, and_true] at h
    subst h
    exact ⟨rfl, by simp⟩
  | cons c rest ih =>
    simp only [splitColon] at h
    by_cases hc : c = ':'
    · rw [if_pos hc] at h
      obtain ⟨h1, h2⟩ := List.cons.inj h
      exact absurd h2 (splitColon_ne_nil rest)
    · rw [if_neg hc] at h
      rcases hr : splitColon rest with _ | ⟨seg, segs⟩
      · exact absurd hr (splitColon_ne_nil rest)
      · rw [hr] at h
        obtain ⟨h1, h2⟩ := List.cons.inj h
        obtain ⟨hrest, hseg⟩ := ih seg (by rw [hr, h2])
        subst hrest
        constructor
        · exact h1
        · rw [← h1]
          simp only [List.mem_cons]
          rintro (hcol | hcol)
          · exact hc hcol.symm
          · exact hseg hcol

/-- A two-element split means the input had exactly one colon, between the
two returned segments. -/
theorem splitColon_eq_pair (cs : List Char) (a b : List Char)
    (h : splitColon cs = [a, b]) :
    cs = a ++ ':' :: b ∧ ':' ∉ a ∧ ':' ∉ b := by
  induction cs generalizing a with
  | nil => simp [splitColon] at h
  | cons c rest ih =>
    simp only [splitColon] at h
    by_cases hc : c = ':'
    · rw [if_pos hc] at h
      obtain ⟨h1, h2⟩ := List.cons.inj h
      obtain ⟨hrest, hb⟩ := splitColon_eq_singleton rest b h2
      subst hrest
      subst hc
      refine ⟨?_, ?_, hb⟩
      · rw [← h1]
        simp
      · rw [← h1]
        simp
    · rw [if_neg hc] at h
      rcases hr : splitColon rest with _ | ⟨seg, segs⟩
      · exact absurd hr (splitColon_ne_nil rest)
      · rw [hr] at h
        obtain ⟨h1, h2⟩ := List.cons.inj h
        obtain ⟨hrest, hseg, hb⟩ := ih seg (by rw [hr, h2])
        refine ⟨?_, ?_, hb⟩
        · rw [← h1, hrest]
          simp
        · rw [← h1]
          simp only [List.mem_cons]
          rintro (hcol | hcol)
          · exact hc hcol.symm
          · exact hseg hcol

/-- A colon-free list splits to the singleton of itself. -/
theorem splitColon_no_colon (cs : List Char) (h : ':' ∉ cs) :
    splitColon cs = [cs] := by
  induction cs with
  | nil => rfl
  | cons c rest ih =>
    simp only [List.mem_cons] at h
    push_neg at h
    simp only [splitColon, ih h.2]
    rw [if_neg (fun hc => h.1 hc.symm)]

/-- Splitting at the unique colon of a decomposed list yields the two
colon-free parts. -/
theorem splitColon_append (pre post : List Char) (h : ':' ∉ pre) :
    splitColon (pre ++ ':' :: post) = pre :: splitColon post := by
  induction pre with
  | nil => simp [splitColon]
  | cons c rest ih =>
    simp only [List.mem_cons] at h
    push_neg at h
    have ih2 : splitColon (List.append rest (':' :: post))
        = rest :: splitColon post := ih h.2
    simp only [List.cons_append, splitColon, ih2]
    rw [if_neg (fun hc => h.1 hc.symm)]

/-- C5: server-address parsing succeeds exactly on the strings with one colon
whose suffix parses as an unsigned 16-bit port: every successful parse comes
from a string made of a colon-free host (possibly empty), one colon and a
port segment accepted by the u16 parser, returning exactly those two parts;
conversely every such string parses to that host and port. Parsing is a
total function into a result type, so no input panics. -/
theorem ServerAddressVisitor.visit_str_spec (data : String) :
    (∀ addr, ServerAddressVisitor.visit_str data = Except.ok addr →
      ∃ pre post, data.data = pre ++ ':' :: post ∧ ':' ∉ pre ∧ ':' ∉ post
        ∧ addr.host = String.mk pre ∧ parseU16 post = some addr.port)
    ∧ (∀ pre post port, data.data = pre ++ ':' :: post → ':' ∉ pre → ':' ∉ post →
        parseU16 post = some port →
        ServerAddressVisitor.visit_str data = Except.ok ⟨String.mk pre, port⟩) := by
  constructor
  · intro addr h
    rcases hs : splitColon data.data with _ | ⟨host, rest⟩
    · exact absurd hs (splitColon_ne_nil data.data)
    rcases rest with _ | ⟨portSeg, rest2⟩
    · have hval : ServerAddressVisitor.visit_str data
          = Except.error "Invalid server description" := by
        unfold ServerAddressVisitor.visit_str
        rw [hs]
      rw [hval] at h
      exact Except.noConfusion h
    rcases hp : parseU16 portSeg with _ | port
    · have hval : ServerAddressVisitor.visit_str data
          = Except.error "Invalid server description" := by
        unfold ServerAddressVisitor.visit_str
        rw [hs]
        simp [hp]
      rw [hval] at h
      exact Except.noConfusion h
    rcases rest2 with _ | ⟨x, xs⟩
    · have hval : ServerAddressVisitor.visit_str data
          = Except.ok ⟨String.mk host, port⟩ := by
        unfold ServerAddressVisitor.visit_str
        rw [hs]
        simp [hp]
      rw [hval] at h
      obtain rfl : ServerAddress.mk (String.mk host) port = addr := Except.ok.inj h
      obtain ⟨hcs, hh, hpp⟩ := splitColon_eq_pair data.data host portSeg hs
      exact ⟨host, portSeg, hcs, hh, hpp, rfl, hp⟩
    · have hval : ServerAddressVisitor.visit_str data
          = Except.error "Extraneous data" := by
        unfold ServerAddressVisitor.visit_str
        rw [hs]
        simp [hp]
      rw [hval] at h
      exact Except.noConfusion h
  · intro pre post port hdecomp hpre hpost hparse
    unfold ServerAddressVisitor.visit_str
    rw [hdecomp, splitColon_append pre post hpre, splitColon_no_colon post hpost]
    simp [hparse]

/-- C5 witness: "rkvm.example:5000" parses to host "rkvm.example" and
port 5000. -/
theorem ServerAddressVisitor.visit_str_spec_witness :
    ServerAddressVisitor.visit_str "rkvm.example:5000"
      = Except.ok ⟨"rkvm.example", 5000⟩ :=
  (ServerAddressVisitor.visit_str_spec "rkvm.example:5000").2
    "rkvm.example".data "5000".data 5000 (by decide) (by decide) (by decide) (by decide)
